import Mathlib

/-!
Shallow embedding of the alerting engine of the `ubuntu-server-monitor`
repository: the `Alerter` class of `src/monitor/alerter.py` together with
its call site `ServerMonitor.check_and_alert` in `src/main.py`.

Numeric metric values, thresholds and timestamps are embedded as rationals
(`ℚ`); Python's `time.time()` is passed in explicitly as a `now` argument.
The cooldown dictionary `self.last_alerts` is embedded as a function
`String → Option ℚ` (`none` = key absent).  The injected Telegram
`send_func` coroutine is embedded as a function from the structured content
of the message to a success flag (`false` = the send raised).  A raised
Python exception is modelled by the `err` field of `CheckResult`: once it
is `some e`, the remaining statements of the call are skipped, exactly as
exception propagation does in the source.
-/

namespace UbuntuServerMonitor

/-- Alert severity as produced by `Alerter._get_level`: the Python strings
are embedded as an inductive with the same two values. -/
inductive Level
  | WARNING
  | CRITICAL
deriving DecidableEq, Repr

/-- The string used when a `Level` is interpolated into an alert key. -/
def levelStr : Level → String
  | Level.WARNING => "WARNING"
  | Level.CRITICAL => "CRITICAL"

/-- Embeds `Alerter._get_level` (alerter.py lines 25-30):
`if value >= critical: return CRITICAL; elif value >= warning: return
WARNING; return None`. -/
def get_level (value warning critical : ℚ) : Option Level :=
  if value ≥ critical then some Level.CRITICAL
  else if value ≥ warning then some Level.WARNING
  else none

/-- The alert category a message belongs to; determined in the source by
which `check_*` routine built the message text. -/
inductive Category
  | cpu
  | memory
  | disk
  | gpuTemp
  | gpuMem
deriving DecidableEq, Repr

/-- Structured content of one notification handed to `send_func`: the data
interpolated into the HTML message of the corresponding `check_*` routine
(category, severity level, server name, optional sub-identifier such as a
mountpoint or GPU index, and the offending value). -/
structure Message where
  category : Category
  level : Level
  server : String
  subId : Option String
  value : ℚ
deriving DecidableEq, Repr

/-- A Python exception escaping a check routine: either a `KeyError` from a
missing dict field, or a failure raised by the injected `send_func`. -/
inductive PyError
  | keyError
  | sendFailure
deriving DecidableEq, Repr

/-- The `alerts` section of the configuration dict: every threshold is
optional and read in the source with `self.config.get(key, default)`. -/
structure AlertsConfig where
  cooldown : Option ℚ
  cpu_warning : Option ℚ
  cpu_critical : Option ℚ
  memory_warning : Option ℚ
  memory_critical : Option ℚ
  disk_warning : Option ℚ
  disk_critical : Option ℚ
  gpu_temp_warning : Option ℚ
  gpu_temp_critical : Option ℚ
  gpu_memory_warning : Option ℚ
  gpu_memory_critical : Option ℚ
deriving DecidableEq, Repr

/-- The configuration dict with no `alerts` keys set, so that every
threshold resolves to its documented default. -/
def emptyConfig : AlertsConfig :=
  ⟨none, none, none, none, none, none, none, none, none, none, none⟩

/-- One entry of the list produced by `SystemCollector.get_disk_info`,
restricted to the fields `Alerter.check_disk` reads. -/
structure DiskInfo where
  mountpoint : String
  percent : ℚ
deriving DecidableEq, Repr

/-- One entry of the list produced by `GPUCollector.get_all_gpus`,
restricted to the fields the GPU checks read.  On an NVML error the
collector returns the empty dict `{}`, embedded as all fields `none`;
`Alerter.check_gpu_temp` reads `temperature` and `check_gpu_memory` reads
`memory_percent` with `.get(key, 0)`, while `index` and `name` are read
with plain subscripts that raise `KeyError` when absent. -/
structure GpuInfo where
  index : Option ℤ
  name : Option String
  temperature : Option ℚ
  memory_percent : Option ℚ
deriving DecidableEq, Repr

/-- The `memory` sub-dict of `SystemCollector.get_all_metrics`, restricted
to the `percent` field `check_all` reads. -/
structure MemoryInfo where
  percent : ℚ
deriving DecidableEq, Repr

/-- The dict produced by `SystemCollector.get_all_metrics`, restricted to
the fields `Alerter.check_all` reads: `cpu_percent`, `memory.percent` and
`disks`. -/
structure SystemMetrics where
  cpu_percent : ℚ
  memory : MemoryInfo
  disks : List DiskInfo
deriving DecidableEq, Repr

/-- The `Alerter` object: the resolved cooldown (`self.cooldown`), the
cooldown dictionary (`self.last_alerts`), the `alerts` config section
(`self.config`) and the injected notifier (`self.send_func`). -/
structure Alerter where
  cooldown : ℚ
  last_alerts : String → Option ℚ
  config : AlertsConfig
  send_func : Message → Bool

/-- Embeds `Alerter.__init__` (alerter.py lines 11-15): cooldown defaults
to 300 and the cooldown dictionary starts empty. -/
def Alerter.init (cfg : AlertsConfig) (send : Message → Bool) : Alerter :=
  { cooldown := cfg.cooldown.getD 300
    last_alerts := fun _ => none
    config := cfg
    send_func := send }

/-- Embeds `Alerter._can_alert` (alerter.py lines 17-23).  `now` is the
value of `time.time()` at the call.  Returns the boolean result together
with the (possibly updated) alerter: the dict `self.last_alerts` is
written exactly when the gate grants. -/
def Alerter.can_alert (a : Alerter) (alert_key : String) (now : ℚ) :
    Bool × Alerter :=
  let last_time := (a.last_alerts alert_key).getD 0
  if now - last_time ≥ a.cooldown then
    (true, { a with
      last_alerts := fun k => if k = alert_key then some now else a.last_alerts k })
  else
    (false, a)

/-- Result of one check routine: the alerter after the call (Python mutates
`self` in place, so the state survives a raised exception), the messages
successfully delivered by `send_func` in order, and the exception that
escaped the call, if any. -/
structure CheckResult where
  alerter : Alerter
  sent : List Message
  err : Option PyError

/-- Embeds `Alerter.check_cpu` (alerter.py lines 32-42): thresholds default
to 70/90; on a non-`None` level the gate is consulted with key
`cpu_<level>` and, when it grants, the message is sent.  The pure gate
call is written out in each branch instead of being named once, which is
semantically identical to the single Python call site. -/
def Alerter.check_cpu (a : Alerter) (cpu_percent : ℚ) (server_name : String)
    (now : ℚ) : CheckResult :=
  match get_level cpu_percent (a.config.cpu_warning.getD 70)
      (a.config.cpu_critical.getD 90) with
  | none => ⟨a, [], none⟩
  | some level =>
      if (a.can_alert ("cpu_" ++ levelStr level) now).1 then
        if a.send_func ⟨Category.cpu, level, server_name, none, cpu_percent⟩ then
          ⟨(a.can_alert ("cpu_" ++ levelStr level) now).2,
           [⟨Category.cpu, level, server_name, none, cpu_percent⟩], none⟩
        else ⟨(a.can_alert ("cpu_" ++ levelStr level) now).2, [],
              some PyError.sendFailure⟩
      else ⟨(a.can_alert ("cpu_" ++ levelStr level) now).2, [], none⟩

/-- Embeds `Alerter.check_memory` (alerter.py lines 44-54): thresholds
default to 80/95, key `memory_<level>`. -/
def Alerter.check_memory (a : Alerter) (memory_percent : ℚ)
    (server_name : String) (now : ℚ) : CheckResult :=
  match get_level memory_percent (a.config.memory_warning.getD 80)
      (a.config.memory_critical.getD 95) with
  | none => ⟨a, [], none⟩
  | some level =>
      if (a.can_alert ("memory_" ++ levelStr level) now).1 then
        if a.send_func ⟨Category.memory, level, server_name, none, memory_percent⟩ then
          ⟨(a.can_alert ("memory_" ++ levelStr level) now).2,
           [⟨Category.memory, level, server_name, none, memory_percent⟩], none⟩
        else ⟨(a.can_alert ("memory_" ++ levelStr level) now).2, [],
              some PyError.sendFailure⟩
      else ⟨(a.can_alert ("memory_" ++ levelStr level) now).2, [], none⟩

/-- The `for disk in disk_info` loop of `Alerter.check_disk` (alerter.py
lines 60-67), with the two thresholds already resolved.  A raised send
failure aborts the rest of the loop, as exception propagation does. -/
def Alerter.check_disk_from (a : Alerter) (warning critical : ℚ)
    (disk_info : List DiskInfo) (server_name : String) (now : ℚ) :
    CheckResult :=
  match disk_info with
  | [] => ⟨a, [], none⟩
  | disk :: rest =>
      match get_level disk.percent warning critical with
      | none => a.check_disk_from warning critical rest server_name now
      | some level =>
          if (a.can_alert ("disk_" ++ disk.mountpoint ++ ("_" ++ levelStr level)) now).1 then
            if a.send_func ⟨Category.disk, level, server_name, some disk.mountpoint, disk.percent⟩ then
              ⟨((a.can_alert ("disk_" ++ disk.mountpoint ++ ("_" ++ levelStr level)) now).2.check_disk_from
                  warning critical rest server_name now).alerter,
               ⟨Category.disk, level, server_name, some disk.mountpoint, disk.percent⟩ ::
                 ((a.can_alert ("disk_" ++ disk.mountpoint ++ ("_" ++ levelStr level)) now).2.check_disk_from
                   warning critical rest server_name now).sent,
               ((a.can_alert ("disk_" ++ disk.mountpoint ++ ("_" ++ levelStr level)) now).2.check_disk_from
                 warning critical rest server_name now).err⟩
            else ⟨(a.can_alert ("disk_" ++ disk.mountpoint ++ ("_" ++ levelStr level)) now).2, [],
                  some PyError.sendFailure⟩
          else (a.can_alert ("disk_" ++ disk.mountpoint ++ ("_" ++ levelStr level)) now).2.check_disk_from
            warning critical rest server_name now

/-- Embeds `Alerter.check_disk` (alerter.py lines 56-67): thresholds
default to 80/95, key `disk_<mountpoint>_<level>`. -/
def Alerter.check_disk (a : Alerter) (disk_info : List DiskInfo)
    (server_name : String) (now : ℚ) : CheckResult :=
  a.check_disk_from (a.config.disk_warning.getD 80)
    (a.config.disk_critical.getD 95) disk_info server_name now

/-- The `for gpu in gpu_info` loop of `Alerter.check_gpu_temp` (alerter.py
lines 73-81).  `temperature` is read with `.get(key, 0)`; when the level is
non-`None` the alert-key f-string reads `gpu[\x7bindex\x7d]` with a plain
subscript (a `KeyError` on the empty dict, raised before the gate is
consulted), and the message f-string then reads `name` after the gate has
granted. -/
def Alerter.check_gpu_temp_from (a : Alerter) (warning critical : ℚ)
    (gpu_info : List GpuInfo) (server_name : String) (now : ℚ) :
    CheckResult :=
  match gpu_info with
  | [] => ⟨a, [], none⟩
  | gpu :: rest =>
      match get_level (gpu.temperature.getD 0) warning critical with
      | none => a.check_gpu_temp_from warning critical rest server_name now
      | some level =>
          match gpu.index with
          | none => ⟨a, [], some PyError.keyError⟩
          | some idx =>
              if (a.can_alert ("gpu_temp_" ++ toString idx ++ ("_" ++ levelStr level)) now).1 then
                match gpu.name with
                | none => ⟨(a.can_alert ("gpu_temp_" ++ toString idx ++ ("_" ++ levelStr level)) now).2,
                           [], some PyError.keyError⟩
                | some _ =>
                    if a.send_func ⟨Category.gpuTemp, level, server_name, some (toString idx),
                        gpu.temperature.getD 0⟩ then
                      ⟨((a.can_alert ("gpu_temp_" ++ toString idx ++ ("_" ++ levelStr level)) now).2.check_gpu_temp_from
                          warning critical rest server_name now).alerter,
                       ⟨Category.gpuTemp, level, server_name, some (toString idx), gpu.temperature.getD 0⟩ ::
                         ((a.can_alert ("gpu_temp_" ++ toString idx ++ ("_" ++ levelStr level)) now).2.check_gpu_temp_from
                           warning critical rest server_name now).sent,
                       ((a.can_alert ("gpu_temp_" ++ toString idx ++ ("_" ++ levelStr level)) now).2.check_gpu_temp_from
                         warning critical rest server_name now).err⟩
                    else ⟨(a.can_alert ("gpu_temp_" ++ toString idx ++ ("_" ++ levelStr level)) now).2,
                          [], some PyError.sendFailure⟩
              else (a.can_alert ("gpu_temp_" ++ toString idx ++ ("_" ++ levelStr level)) now).2.check_gpu_temp_from
                warning critical rest server_name now

/-- Embeds `Alerter.check_gpu_temp` (alerter.py lines 69-81): thresholds
default to 75/85, key `gpu_temp_<index>_<level>`. -/
def Alerter.check_gpu_temp (a : Alerter) (gpu_info : List GpuInfo)
    (server_name : String) (now : ℚ) : CheckResult :=
  a.check_gpu_temp_from (a.config.gpu_temp_warning.getD 75)
    (a.config.gpu_temp_critical.getD 85) gpu_info server_name now

/-- The `for gpu in gpu_info` loop of `Alerter.check_gpu_memory`
(alerter.py lines 87-95); same shape as the temperature loop with
`memory_percent` read via `.get(key, 0)`. -/
def Alerter.check_gpu_memory_from (a : Alerter) (warning critical : ℚ)
    (gpu_info : List GpuInfo) (server_name : String) (now : ℚ) :
    CheckResult :=
  match gpu_info with
  | [] => ⟨a, [], none⟩
  | gpu :: rest =>
      match get_level (gpu.memory_percent.getD 0) warning critical with
      | none => a.check_gpu_memory_from warning critical rest server_name now
      | some level =>
          match gpu.index with
          | none => ⟨a, [], some PyError.keyError⟩
          | some idx =>
              if (a.can_alert ("gpu_mem_" ++ toString idx ++ ("_" ++ levelStr level)) now).1 then
                match gpu.name with
                | none => ⟨(a.can_alert ("gpu_mem_" ++ toString idx ++ ("_" ++ levelStr level)) now).2,
                           [], some PyError.keyError⟩
                | some _ =>
                    if a.send_func ⟨Category.gpuMem, level, server_name, some (toString idx),
                        gpu.memory_percent.getD 0⟩ then
                      ⟨((a.can_alert ("gpu_mem_" ++ toString idx ++ ("_" ++ levelStr level)) now).2.check_gpu_memory_from
                          warning critical rest server_name now).alerter,
                       ⟨Category.gpuMem, level, server_name, some (toString idx), gpu.memory_percent.getD 0⟩ ::
                         ((a.can_alert ("gpu_mem_" ++ toString idx ++ ("_" ++ levelStr level)) now).2.check_gpu_memory_from
                           warning critical rest server_name now).sent,
                       ((a.can_alert ("gpu_mem_" ++ toString idx ++ ("_" ++ levelStr level)) now).2.check_gpu_memory_from
                         warning critical rest server_name now).err⟩
                    else ⟨(a.can_alert ("gpu_mem_" ++ toString idx ++ ("_" ++ levelStr level)) now).2,
                          [], some PyError.sendFailure⟩
              else (a.can_alert ("gpu_mem_" ++ toString idx ++ ("_" ++ levelStr level)) now).2.check_gpu_memory_from
                warning critical rest server_name now

/-- Embeds `Alerter.check_gpu_memory` (alerter.py lines 83-95): thresholds
default to 80/95, key `gpu_mem_<index>_<level>`. -/
def Alerter.check_gpu_memory (a : Alerter) (gpu_info : List GpuInfo)
    (server_name : String) (now : ℚ) : CheckResult :=
  a.check_gpu_memory_from (a.config.gpu_memory_warning.getD 80)
    (a.config.gpu_memory_critical.getD 95) gpu_info server_name now

/-- Sequencing of two awaited statements under Python exception semantics:
if the first raised, the second never runs and the exception propagates
(the state reached so far survives, since Python mutates in place);
otherwise the second runs on the state left by the first and the
delivered messages accumulate. -/
def CheckResult.andThen (r : CheckResult) (f : Alerter → CheckResult) :
    CheckResult :=
  match r.err with
  | some e => ⟨r.alerter, r.sent, some e⟩
  | none => ⟨(f r.alerter).alerter, r.sent ++ (f r.alerter).sent, (f r.alerter).err⟩

/-- Embeds `Alerter.check_all` (alerter.py lines 97-103): the five checks
run in order with no per-category exception handler, so an exception
raised by one check skips all the following ones; the GPU checks only run
when `gpu_metrics` is non-empty (Python list truthiness). -/
def Alerter.check_all (a : Alerter) (system_metrics : SystemMetrics)
    (gpu_metrics : List GpuInfo) (server_name : String) (now : ℚ) :
    CheckResult :=
  (a.check_cpu system_metrics.cpu_percent server_name now).andThen fun a1 =>
    (a1.check_memory system_metrics.memory.percent server_name now).andThen fun a2 =>
      (a2.check_disk system_metrics.disks server_name now).andThen fun a3 =>
        if gpu_metrics.isEmpty then ⟨a3, [], none⟩
        else
          (a3.check_gpu_temp gpu_metrics server_name now).andThen fun a4 =>
            a4.check_gpu_memory gpu_metrics server_name now

/-- Embeds `ServerMonitor.check_and_alert` (main.py lines 51-57): the whole
`check_all` pass runs inside one `try`, the handler logs and swallows any
exception, and the alerter (mutated in place) survives into later passes.
Returns the surviving alerter and the messages delivered in the pass. -/
def check_and_alert (a : Alerter) (system_metrics : SystemMetrics)
    (gpu_metrics : List GpuInfo) (server_name : String) (now : ℚ) :
    Alerter × List Message :=
  let r := a.check_all system_metrics gpu_metrics server_name now
  (r.alerter, r.sent)

/-- Runs a sequence of cooldown-gate calls `(key, now)` in order,
discarding the boolean results; used to state invariants of the
`last_alerts` store across arbitrary interleavings of checks. -/
def applyGates (a : Alerter) : List (String × ℚ) → Alerter
  | [] => a
  | op :: rest => applyGates (a.can_alert op.1 op.2).2 rest

/-- `gateFired a k ops` is true iff, while the gate calls `ops` run in
order from state `a`, some call on key `k` is granted (an alert of key `k`
fires). -/
def gateFired (a : Alerter) (k : String) : List (String × ℚ) → Bool
  | [] => false
  | op :: rest =>
      let r := a.can_alert op.1 op.2
      (r.1 && (op.1 == k)) || gateFired r.2 k rest

/-! Basic lemmas about the cooldown gate. -/

/-- A gate call never changes the resolved cooldown. -/
theorem can_alert_cooldown (a : Alerter) (key : String) (now : ℚ) :
    ((a.can_alert key now).2).cooldown = a.cooldown := by
  simp only [Alerter.can_alert]
  split <;> rfl

/-- A gate call never changes the configuration. -/
theorem can_alert_config (a : Alerter) (key : String) (now : ℚ) :
    ((a.can_alert key now).2).config = a.config := by
  simp only [Alerter.can_alert]
  split <;> rfl

/-- A gate call never changes the notifier. -/
theorem can_alert_send_func (a : Alerter) (key : String) (now : ℚ) :
    ((a.can_alert key now).2).send_func = a.send_func := by
  simp only [Alerter.can_alert]
  split <;> rfl

/-- The boolean result of the gate is exactly the cooldown comparison
against the stored time (0 when the key is absent). -/
theorem can_alert_true_iff (a : Alerter) (key : String) (now : ℚ) :
    (a.can_alert key now).1 = true ↔
      a.cooldown ≤ now - (a.last_alerts key).getD 0 := by
  simp only [Alerter.can_alert]
  split_ifs with h <;> simp [h]

/-- The gate denies exactly when the cooldown comparison fails. -/
theorem can_alert_false_iff (a : Alerter) (key : String) (now : ℚ) :
    (a.can_alert key now).1 = false ↔
      ¬ a.cooldown ≤ now - (a.last_alerts key).getD 0 := by
  rw [← can_alert_true_iff]
  cases (a.can_alert key now).1 <;> simp

/-- When the gate grants, the key's entry is overwritten with `now`. -/
theorem can_alert_snd_of_true (a : Alerter) (key : String) (now : ℚ)
    (h : (a.can_alert key now).1 = true) :
    (a.can_alert key now).2.last_alerts key = some now := by
  have hc := (can_alert_true_iff a key now).mp h
  simp only [Alerter.can_alert]
  rw [if_pos hc]
  simp

/-- When the gate denies, the alerter is returned unchanged. -/
theorem can_alert_snd_of_false (a : Alerter) (key : String) (now : ℚ)
    (h : (a.can_alert key now).1 = false) :
    (a.can_alert key now).2 = a := by
  have hc := (can_alert_false_iff a key now).mp h
  simp only [Alerter.can_alert]
  rw [if_neg hc]

/-- A gate call on one key leaves every other key's entry unchanged. -/
theorem can_alert_frame (a : Alerter) (key k : String) (now : ℚ)
    (h : k ≠ key) :
    (a.can_alert key now).2.last_alerts k = a.last_alerts k := by
  simp only [Alerter.can_alert]
  split_ifs with hc
  · simp [h]
  · rfl

/-- Claim C3: `_get_level` classifies a value as CRITICAL iff it is at or
above the critical threshold, WARNING iff it is at or above the warning
threshold but below critical, and None iff it is below warning, whenever
the critical threshold is at least the warning threshold; the function
returns a single level, so a value over both thresholds is CRITICAL
only. -/
theorem C3_classify_levels (v w c : ℚ) (h : w ≤ c) :
    (get_level v w c = some Level.CRITICAL ↔ c ≤ v) ∧
    (get_level v w c = some Level.WARNING ↔ w ≤ v ∧ v < c) ∧
    (get_level v w c = none ↔ v < w) := by
  unfold get_level
  split_ifs with h1 h2
  · refine ⟨⟨fun _ => h1, fun _ => rfl⟩, ⟨fun hx => ?_, fun hx => ?_⟩,
      ⟨fun hx => ?_, fun hx => ?_⟩⟩
    · simp at hx
    · exact absurd h1 (not_le.mpr hx.2)
    · simp at hx
    · exact absurd h1 (not_le.mpr (lt_of_lt_of_le hx h))
  · refine ⟨⟨fun hx => ?_, fun hx => ?_⟩, ⟨fun _ => ⟨h2, not_le.mp h1⟩, fun _ => rfl⟩,
      ⟨fun hx => ?_, fun hx => ?_⟩⟩
    · simp at hx
    · exact absurd hx h1
    · simp at hx
    · exact absurd h2 (not_le.mpr hx)
  · refine ⟨⟨fun hx => ?_, fun hx => ?_⟩, ⟨fun hx => ?_, fun hx => ?_⟩,
      ⟨fun _ => not_le.mp h2, fun _ => rfl⟩⟩
    · simp at hx
    · exact absurd hx h1
    · simp at hx
    · exact absurd hx.1 h2

/-- Witness for C3 at v = 95, w = 70, c = 90. -/
theorem C3_classify_levels_witness :
    ((70:ℚ) ≤ 90) ∧
    ((get_level 95 70 90 = some Level.CRITICAL ↔ (90:ℚ) ≤ 95) ∧
     (get_level 95 70 90 = some Level.WARNING ↔ (70:ℚ) ≤ 95 ∧ (95:ℚ) < 90) ∧
     (get_level 95 70 90 = none ↔ (95:ℚ) < 70)) :=
  ⟨by norm_num, C3_classify_levels 95 70 90 (by norm_num)⟩

/-- Claim C2 counterexample: with the default cooldown 300 and a fresh
(empty) store, the key `cpu_CRITICAL` is absent, yet the gate call at
`now = 0` returns false — the code treats an absent key as
`lastFired = 0`, so an absent key is granted only when `now` is at least
the cooldown, not for every `now` as claimed. -/
theorem C2_counterexample :
    ((Alerter.init emptyConfig (fun _ => true)).last_alerts ("cpu_CRITICAL") = none) ∧
    (((Alerter.init emptyConfig (fun _ => true)).can_alert ("cpu_CRITICAL") 0).1 = false) := by
  refine ⟨rfl, (can_alert_false_iff _ _ _).mpr ?_⟩
  norm_num [Alerter.init, emptyConfig]

/-- Claim C2 amended: for an absent key the gate treats the last-fired
time as 0, so it grants exactly when `now ≥ cooldownSeconds`; whenever it
grants it records `lastFired = now` for the key and returns true. -/
theorem C2_absent_key_gate (a : Alerter) (key : String) (now : ℚ)
    (habs : a.last_alerts key = none) :
    ((a.can_alert key now).1 = true ↔ a.cooldown ≤ now) ∧
    (a.cooldown ≤ now →
      (a.can_alert key now).1 = true ∧
      (a.can_alert key now).2.last_alerts key = some now) := by
  unfold Alerter.can_alert
  rw [habs]
  simp only [Option.getD_none, sub_zero]
  split_ifs with hc
  · exact ⟨by simp [hc], fun _ => ⟨rfl, by simp⟩⟩
  · exact ⟨by simp [hc], fun hx => absurd hx hc⟩

/-- Witness for the amended C2: fresh store, key absent, `now = 300`
meets the default cooldown, so the call grants and records. -/
theorem C2_absent_key_gate_witness :
    ((Alerter.init emptyConfig (fun _ => true)).last_alerts ("memory_WARNING") = none) ∧
    ((((Alerter.init emptyConfig (fun _ => true)).can_alert ("memory_WARNING") 300).1 = true ↔
        (Alerter.init emptyConfig (fun _ => true)).cooldown ≤ 300) ∧
     ((Alerter.init emptyConfig (fun _ => true)).cooldown ≤ 300 →
        ((Alerter.init emptyConfig (fun _ => true)).can_alert ("memory_WARNING") 300).1 = true ∧
        ((Alerter.init emptyConfig (fun _ => true)).can_alert ("memory_WARNING") 300).2.last_alerts
          ("memory_WARNING") = some 300)) :=
  ⟨rfl, C2_absent_key_gate (Alerter.init emptyConfig (fun _ => true)) ("memory_WARNING") 300 rfl⟩

/-- Claim C4 counterexample: with the default cooldown 300, a fresh store
and call times now1 = 0, now2 = 100 (so now2 - now1 < cooldown), the
claim asserts the two calls return (true, false), but the first call
already returns false — an absent key is treated as `lastFired = 0`. -/
theorem C4_counterexample :
    ((100:ℚ) - 0 < (Alerter.init emptyConfig (fun _ => true)).cooldown) ∧
    (((Alerter.init emptyConfig (fun _ => true)).can_alert ("cpu_WARNING") 0).1 = false) := by
  refine ⟨by norm_num [Alerter.init, emptyConfig], (can_alert_false_iff _ _ _).mpr ?_⟩
  norm_num [Alerter.init, emptyConfig]

/-- Claim C4 amended: for a fixed key, provided the first gate call (at
`now1`) is granted, the second call (at `now2`) is denied when
`now2 - now1 < cooldown` and granted when `now2 - now1 ≥ cooldown`. -/
theorem C4_two_gate_calls (a : Alerter) (key : String) (now1 now2 : ℚ)
    (h1 : (a.can_alert key now1).1 = true) :
    (now2 - now1 < a.cooldown →
      (((a.can_alert key now1).2).can_alert key now2).1 = false) ∧
    (a.cooldown ≤ now2 - now1 →
      (((a.can_alert key now1).2).can_alert key now2).1 = true) := by
  have hb := can_alert_snd_of_true a key now1 h1
  have hiff := can_alert_true_iff ((a.can_alert key now1).2) key now2
  rw [hb, can_alert_cooldown] at hiff
  simp only [Option.getD_some] at hiff
  constructor
  · intro hlt
    cases hx : (((a.can_alert key now1).2).can_alert key now2).1
    · rfl
    · exact absurd (hiff.mp hx) (not_le.mpr hlt)
  · intro hge
    exact hiff.mpr hge

/-- Witness for the amended C4: fresh store with default cooldown, first
call at now1 = 300 is granted; the instantiated conclusion covers
now2 = 400 (within the cooldown window). -/
theorem C4_two_gate_calls_witness :
    (((Alerter.init emptyConfig (fun _ => true)).can_alert ("k") 300).1 = true) ∧
    (((400:ℚ) - 300 < (Alerter.init emptyConfig (fun _ => true)).cooldown →
      ((((Alerter.init emptyConfig (fun _ => true)).can_alert ("k") 300).2).can_alert ("k") 400).1 = false) ∧
     ((Alerter.init emptyConfig (fun _ => true)).cooldown ≤ (400:ℚ) - 300 →
      ((((Alerter.init emptyConfig (fun _ => true)).can_alert ("k") 300).2).can_alert ("k") 400).1 = true)) :=
  ⟨(can_alert_true_iff _ _ _).mpr (by norm_num [Alerter.init, emptyConfig]),
   C4_two_gate_calls (Alerter.init emptyConfig (fun _ => true)) ("k") 300 400
     ((can_alert_true_iff _ _ _).mpr (by norm_num [Alerter.init, emptyConfig]))⟩

/-- A store holding one entry, for concrete frame instances. -/
def demoStore : String → Option ℚ :=
  fun k => if k = ("other") then some 5 else none

/-- An alerter over the default config whose store holds one entry. -/
def demoAlerter : Alerter :=
  { cooldown := 300
    last_alerts := demoStore
    config := emptyConfig
    send_func := fun _ => true }

/-- Claim C6: a gate call on key `k1` reads only `k1`'s entry — its boolean
result is the same under any other alerter agreeing on the cooldown and on
`k1`'s entry — and it leaves the entry of every other key `k2` unchanged. -/
theorem C6_gate_isolation (a a' : Alerter) (k1 k2 : String) (now : ℚ)
    (hne : k2 ≠ k1)
    (hcd : a'.cooldown = a.cooldown)
    (hk1 : a'.last_alerts k1 = a.last_alerts k1) :
    (a'.can_alert k1 now).1 = (a.can_alert k1 now).1 ∧
    (a.can_alert k1 now).2.last_alerts k2 = a.last_alerts k2 := by
  constructor
  · have h1 := can_alert_true_iff a k1 now
    have h2 := can_alert_true_iff a' k1 now
    rw [hcd, hk1] at h2
    cases hx : (a.can_alert k1 now).1
    · cases hy : (a'.can_alert k1 now).1
      · rfl
      · have := h1.mpr (h2.mp hy)
        rw [hx] at this
        simp at this
    · exact h2.mpr (h1.mp hx)
  · exact can_alert_frame a k1 k2 now hne

/-- Witness for C6: the gate call on `cpu_CRITICAL` at time 400 behaves
identically over the fresh store and over `demoAlerter` (which differs
only at key `other`), and does not touch the entry of `other`. -/
theorem C6_gate_isolation_witness :
    (("other") ≠ ("cpu_CRITICAL") ∧
     demoAlerter.cooldown = (Alerter.init emptyConfig (fun _ => true)).cooldown ∧
     demoAlerter.last_alerts ("cpu_CRITICAL") =
       (Alerter.init emptyConfig (fun _ => true)).last_alerts ("cpu_CRITICAL")) ∧
    ((demoAlerter.can_alert ("cpu_CRITICAL") 400).1 =
       ((Alerter.init emptyConfig (fun _ => true)).can_alert ("cpu_CRITICAL") 400).1 ∧
     ((Alerter.init emptyConfig (fun _ => true)).can_alert ("cpu_CRITICAL") 400).2.last_alerts
       ("other") = (Alerter.init emptyConfig (fun _ => true)).last_alerts ("other")) :=
  ⟨⟨by decide, rfl, by simp [demoAlerter, demoStore, Alerter.init]⟩,
   C6_gate_isolation (Alerter.init emptyConfig (fun _ => true)) demoAlerter
     ("cpu_CRITICAL") ("other") 400 (by decide) rfl
     (by simp [demoAlerter, demoStore, Alerter.init])⟩

/-- Claim C5: when the CPU check fires (non-None level, gate granted) and
the send raises, `check_cpu` propagates the failure, yet the cooldown
entry written at grant time keeps the grant timestamp `now`, and a later
gate call on the same key within the cooldown window is denied: the alert
counts as fired although delivery failed, with no retry inside the
window. -/
theorem C5_slot_kept_on_send_failure (a : Alerter) (cpu : ℚ)
    (server_name : String) (now now2 : ℚ) (level : Level)
    (hlvl : get_level cpu (a.config.cpu_warning.getD 70)
      (a.config.cpu_critical.getD 90) = some level)
    (hgrant : (a.can_alert ("cpu_" ++ levelStr level) now).1 = true)
    (hfail : a.send_func ⟨Category.cpu, level, server_name, none, cpu⟩ = false)
    (hwin : now2 - now < a.cooldown) :
    (a.check_cpu cpu server_name now).err = some PyError.sendFailure ∧
    (a.check_cpu cpu server_name now).alerter.last_alerts
      ("cpu_" ++ levelStr level) = some now ∧
    ((a.check_cpu cpu server_name now).alerter.can_alert
      ("cpu_" ++ levelStr level) now2).1 = false := by
  have hres : a.check_cpu cpu server_name now =
      ⟨(a.can_alert ("cpu_" ++ levelStr level) now).2, [],
       some PyError.sendFailure⟩ := by
    unfold Alerter.check_cpu
    rw [hlvl]
    simp [hgrant, hfail]
  have hb := can_alert_snd_of_true a ("cpu_" ++ levelStr level) now hgrant
  refine ⟨by rw [hres], ?_, ?_⟩
  · rw [hres]
    exact hb
  · rw [hres]
    rw [can_alert_false_iff, hb, can_alert_cooldown]
    simp only [Option.getD_some]
    exact not_le.mpr hwin

/-- Witness for C5: always-failing notifier, default thresholds, CPU at
95 percent (CRITICAL), grant at time 1000, re-check at 1100. -/
theorem C5_slot_kept_on_send_failure_witness :
    (get_level 95 ((Alerter.init emptyConfig (fun _ => false)).config.cpu_warning.getD 70)
       ((Alerter.init emptyConfig (fun _ => false)).config.cpu_critical.getD 90) =
         some Level.CRITICAL ∧
     ((Alerter.init emptyConfig (fun _ => false)).can_alert
       ("cpu_" ++ levelStr Level.CRITICAL) 1000).1 = true ∧
     (Alerter.init emptyConfig (fun _ => false)).send_func
       ⟨Category.cpu, Level.CRITICAL, ("S"), none, 95⟩ = false ∧
     (1100:ℚ) - 1000 < (Alerter.init emptyConfig (fun _ => false)).cooldown) ∧
    (((Alerter.init emptyConfig (fun _ => false)).check_cpu 95 ("S") 1000).err =
       some PyError.sendFailure ∧
     ((Alerter.init emptyConfig (fun _ => false)).check_cpu 95 ("S") 1000).alerter.last_alerts
       ("cpu_" ++ levelStr Level.CRITICAL) = some 1000 ∧
     (((Alerter.init emptyConfig (fun _ => false)).check_cpu 95 ("S") 1000).alerter.can_alert
       ("cpu_" ++ levelStr Level.CRITICAL) 1100).1 = false) :=
  ⟨⟨by norm_num [Alerter.init, emptyConfig, get_level],
    (can_alert_true_iff _ _ _).mpr (by norm_num [Alerter.init, emptyConfig]),
    rfl,
    by norm_num [Alerter.init, emptyConfig]⟩,
   C5_slot_kept_on_send_failure (Alerter.init emptyConfig (fun _ => false)) 95 ("S")
     1000 1100 Level.CRITICAL
     (by norm_num [Alerter.init, emptyConfig, get_level])
     ((can_alert_true_iff _ _ _).mpr (by norm_num [Alerter.init, emptyConfig]))
     rfl
     (by norm_num [Alerter.init, emptyConfig])⟩

/-! Lemmas on sequencing with exception propagation. -/

/-- If the first statement raised, the second never runs. -/
theorem andThen_eq_of_err_some (r : CheckResult) (f : Alerter → CheckResult)
    (e : PyError) (h : r.err = some e) : r.andThen f = r := by
  unfold CheckResult.andThen
  rw [h]
  show (⟨r.alerter, r.sent, some e⟩ : CheckResult) = r
  rw [← h]

/-- If the first statement completed, the second runs on its state. -/
theorem andThen_eq_of_err_none (r : CheckResult) (f : Alerter → CheckResult)
    (h : r.err = none) :
    r.andThen f =
      ⟨(f r.alerter).alerter, r.sent ++ (f r.alerter).sent, (f r.alerter).err⟩ := by
  unfold CheckResult.andThen
  rw [h]

/-- A property of all delivered messages passes through sequencing. -/
theorem andThen_sent_forall (r : CheckResult) (f : Alerter → CheckResult)
    (p : Message → Prop)
    (hr : ∀ m ∈ r.sent, p m) (hf : ∀ m ∈ (f r.alerter).sent, p m) :
    ∀ m ∈ (r.andThen f).sent, p m := by
  unfold CheckResult.andThen
  cases hre : r.err with
  | some e => exact hr
  | none =>
      intro m hm
      rcases List.mem_append.mp hm with h | h
      · exact hr m h
      · exact hf m h

/-- Error-freedom passes through sequencing. -/
theorem andThen_err_none_of (r : CheckResult) (f : Alerter → CheckResult)
    (hr : r.err = none) (hf : (f r.alerter).err = none) :
    (r.andThen f).err = none := by
  unfold CheckResult.andThen
  rw [hr]
  exact hf

/-- Notifier that raises exactly on CPU messages and delivers the rest. -/
def cexSend : Message → Bool := fun m =>
  match m.category with
  | Category.cpu => false
  | _ => true

/-- Alerter over the default thresholds with the CPU-failing notifier. -/
def cexAlerter : Alerter := Alerter.init emptyConfig cexSend

/-- Snapshot with CPU and memory both over their critical thresholds and
no disks. -/
def cexMetrics : SystemMetrics := ⟨95, ⟨96⟩, []⟩

/-- Claim C1 counterexample: with default thresholds, CPU at 95 and memory
at 96 (both CRITICAL) and a notifier that raises exactly on the CPU
message, `check_all` propagates the CPU send failure, delivers nothing,
and leaves no `memory_CRITICAL` cooldown entry — even though the memory
check run alone at the same instant would deliver a message.  The Memory,
Disk and GPU checks of the pass were therefore not evaluated. -/
theorem C1_counterexample :
    ((cexAlerter.check_all cexMetrics [] ("S") 1000).err = some PyError.sendFailure) ∧
    ((cexAlerter.check_all cexMetrics [] ("S") 1000).alerter.last_alerts
      ("memory_CRITICAL") = none) ∧
    ((cexAlerter.check_all cexMetrics [] ("S") 1000).sent = []) ∧
    ((cexAlerter.check_memory 96 ("S") 1000).sent ≠ []) := by
  have hcpu : cexAlerter.check_cpu 95 ("S") 1000 =
      ⟨(cexAlerter.can_alert ("cpu_CRITICAL") 1000).2, [], some PyError.sendFailure⟩ := by
    unfold Alerter.check_cpu
    norm_num [cexAlerter, cexSend, Alerter.init, emptyConfig, get_level, levelStr,
      Alerter.can_alert]
    funext k
    simp
  have hall : cexAlerter.check_all cexMetrics [] ("S") 1000 =
      ⟨(cexAlerter.can_alert ("cpu_CRITICAL") 1000).2, [], some PyError.sendFailure⟩ := by
    unfold Alerter.check_all
    rw [show cexMetrics.cpu_percent = 95 from rfl, hcpu]
    exact andThen_eq_of_err_some _ _ PyError.sendFailure rfl
  refine ⟨by rw [hall], ?_, by rw [hall], ?_⟩
  · rw [hall]
    show (cexAlerter.can_alert ("cpu_CRITICAL") 1000).2.last_alerts ("memory_CRITICAL") = none
    rw [can_alert_frame cexAlerter ("cpu_CRITICAL") ("memory_CRITICAL") 1000 (by decide)]
    rfl
  · unfold Alerter.check_memory
    norm_num [cexAlerter, cexSend, Alerter.init, emptyConfig, get_level, levelStr,
      Alerter.can_alert]

/-- Claim C1 amended: a failure raised while notifying for the CPU
category aborts the evaluation pass — `check_all` returns the CPU check's
result unchanged, so the Memory, Disk and GPU checks of that same pass
are skipped.  The exception is caught only one level up, in
`check_and_alert`, which swallows it and keeps the partially updated
alerter, so later passes still run. -/
theorem C1_cpu_failure_skips_rest (a : Alerter) (sm : SystemMetrics)
    (g : List GpuInfo) (server_name : String) (now : ℚ) (e : PyError)
    (h : (a.check_cpu sm.cpu_percent server_name now).err = some e) :
    a.check_all sm g server_name now = a.check_cpu sm.cpu_percent server_name now ∧
    check_and_alert a sm g server_name now =
      ((a.check_cpu sm.cpu_percent server_name now).alerter,
       (a.check_cpu sm.cpu_percent server_name now).sent) := by
  have h1 : a.check_all sm g server_name now =
      a.check_cpu sm.cpu_percent server_name now := by
    unfold Alerter.check_all
    exact andThen_eq_of_err_some _ _ e h
  refine ⟨h1, ?_⟩
  unfold check_and_alert
  rw [h1]

/-- Witness for the amended C1 at the counterexample input. -/
theorem C1_cpu_failure_skips_rest_witness :
    ((cexAlerter.check_cpu cexMetrics.cpu_percent ("S") 1000).err =
       some PyError.sendFailure) ∧
    (cexAlerter.check_all cexMetrics [] ("S") 1000 =
       cexAlerter.check_cpu cexMetrics.cpu_percent ("S") 1000 ∧
     check_and_alert cexAlerter cexMetrics [] ("S") 1000 =
       ((cexAlerter.check_cpu cexMetrics.cpu_percent ("S") 1000).alerter,
        (cexAlerter.check_cpu cexMetrics.cpu_percent ("S") 1000).sent)) :=
  ⟨by
    unfold Alerter.check_cpu
    norm_num [cexAlerter, cexSend, cexMetrics, Alerter.init, emptyConfig, get_level,
      levelStr, Alerter.can_alert],
   C1_cpu_failure_skips_rest cexAlerter cexMetrics [] ("S") 1000 PyError.sendFailure
     (by
       unfold Alerter.check_cpu
       norm_num [cexAlerter, cexSend, cexMetrics, Alerter.init, emptyConfig, get_level,
         levelStr, Alerter.can_alert])⟩

/-! Shape lemmas for the scalar checks, used by the aggregate claims. -/

/-- Every message delivered by the CPU check is a CPU message. -/
theorem check_cpu_sent_cat (a : Alerter) (cpu : ℚ) (server_name : String) (now : ℚ) :
    ∀ m ∈ (a.check_cpu cpu server_name now).sent, m.category = Category.cpu := by
  unfold Alerter.check_cpu
  cases get_level cpu (a.config.cpu_warning.getD 70) (a.config.cpu_critical.getD 90) with
  | none => simp
  | some level =>
      dsimp only
      split_ifs with h1 h2 <;> simp

/-- Every message delivered by the memory check is a memory message. -/
theorem check_memory_sent_cat (a : Alerter) (mem : ℚ) (server_name : String) (now : ℚ) :
    ∀ m ∈ (a.check_memory mem server_name now).sent, m.category = Category.memory := by
  unfold Alerter.check_memory
  cases get_level mem (a.config.memory_warning.getD 80) (a.config.memory_critical.getD 95) with
  | none => simp
  | some level =>
      dsimp only
      split_ifs with h1 h2 <;> simp

/-- With a notifier that never fails, the CPU check raises nothing. -/
theorem check_cpu_err_none (a : Alerter) (cpu : ℚ) (server_name : String) (now : ℚ)
    (hsend : ∀ msg, a.send_func msg = true) :
    (a.check_cpu cpu server_name now).err = none := by
  unfold Alerter.check_cpu
  cases get_level cpu (a.config.cpu_warning.getD 70) (a.config.cpu_critical.getD 90) with
  | none => rfl
  | some level =>
      dsimp only
      split_ifs with h1 h2
      · rfl
      · exact absurd (hsend _) h2
      · rfl

/-- With a notifier that never fails, the memory check raises nothing. -/
theorem check_memory_err_none (a : Alerter) (mem : ℚ) (server_name : String) (now : ℚ)
    (hsend : ∀ msg, a.send_func msg = true) :
    (a.check_memory mem server_name now).err = none := by
  unfold Alerter.check_memory
  cases get_level mem (a.config.memory_warning.getD 80) (a.config.memory_critical.getD 95) with
  | none => rfl
  | some level =>
      dsimp only
      split_ifs with h1 h2
      · rfl
      · exact absurd (hsend _) h2
      · rfl

/-- The CPU check never changes the notifier reference. -/
theorem check_cpu_send_func (a : Alerter) (cpu : ℚ) (server_name : String) (now : ℚ) :
    (a.check_cpu cpu server_name now).alerter.send_func = a.send_func := by
  unfold Alerter.check_cpu
  cases get_level cpu (a.config.cpu_warning.getD 70) (a.config.cpu_critical.getD 90) with
  | none => rfl
  | some level =>
      dsimp only
      split_ifs with h1 h2 <;> exact can_alert_send_func a _ now

/-- The memory check never changes the notifier reference. -/
theorem check_memory_send_func (a : Alerter) (mem : ℚ) (server_name : String) (now : ℚ) :
    (a.check_memory mem server_name now).alerter.send_func = a.send_func := by
  unfold Alerter.check_memory
  cases get_level mem (a.config.memory_warning.getD 80) (a.config.memory_critical.getD 95) with
  | none => rfl
  | some level =>
      dsimp only
      split_ifs with h1 h2 <;> exact can_alert_send_func a _ now

/-- Claim C8: on a snapshot with no disks and no GPUs, and a notifier that
delivers every message, `check_all` delivers only CPU or memory messages
(zero disk and zero GPU notifications) and raises no error: the empty
disk list does zero loop iterations and the empty GPU list makes the GPU
checks be skipped, neither being treated as an error or a missing-data
alert. -/
theorem C8_empty_disk_and_gpu (a : Alerter) (cpu mem : ℚ)
    (server_name : String) (now : ℚ)
    (hsend : ∀ msg, a.send_func msg = true) :
    (∀ m ∈ (a.check_all ⟨cpu, ⟨mem⟩, []⟩ [] server_name now).sent,
        m.category = Category.cpu ∨ m.category = Category.memory) ∧
    (a.check_all ⟨cpu, ⟨mem⟩, []⟩ [] server_name now).err = none := by
  have hsend1 : ∀ msg,
      (a.check_cpu cpu server_name now).alerter.send_func msg = true := by
    intro msg
    rw [check_cpu_send_func]
    exact hsend msg
  constructor
  · apply andThen_sent_forall
    · intro m hm
      exact Or.inl (check_cpu_sent_cat a cpu server_name now m hm)
    · apply andThen_sent_forall
      · intro m hm
        exact Or.inr (check_memory_sent_cat _ mem server_name now m hm)
      · apply andThen_sent_forall
        · intro m hm
          exact absurd hm (by simp [Alerter.check_disk, Alerter.check_disk_from])
        · intro m hm
          exact absurd hm (by simp)
  · apply andThen_err_none_of
    · exact check_cpu_err_none a cpu server_name now hsend
    · apply andThen_err_none_of
      · exact check_memory_err_none _ mem server_name now hsend1
      · apply andThen_err_none_of
        · rfl
        · rfl

/-- Witness for C8: default thresholds, always-delivering notifier, CPU 95
and memory 96, empty disk and GPU lists. -/
theorem C8_empty_disk_and_gpu_witness :
    (∀ msg, (Alerter.init emptyConfig (fun _ => true)).send_func msg = true) ∧
    ((∀ m ∈ ((Alerter.init emptyConfig (fun _ => true)).check_all ⟨95, ⟨96⟩, []⟩ []
        ("S") 1000).sent,
        m.category = Category.cpu ∨ m.category = Category.memory) ∧
     ((Alerter.init emptyConfig (fun _ => true)).check_all ⟨95, ⟨96⟩, []⟩ []
        ("S") 1000).err = none) :=
  ⟨fun _ => rfl,
   C8_empty_disk_and_gpu (Alerter.init emptyConfig (fun _ => true)) 95 96 ("S") 1000
     (fun _ => rfl)⟩

/-- Zero is classified as no level when both thresholds are positive. -/
theorem get_level_zero (w c : ℚ) (hw : 0 < w) (hc : 0 < c) :
    get_level 0 w c = none := by
  unfold get_level
  rw [if_neg (not_le.mpr hc), if_neg (not_le.mpr hw)]

/-- Config whose GPU-temperature warning is positive but whose critical
threshold is 0, as `config.get` allows. -/
def cfg9 : AlertsConfig :=
  { emptyConfig with gpu_temp_warning := some 5, gpu_temp_critical := some 0 }

/-- Claim C9 counterexample: the GPU-temperature warning threshold is 5
(positive), the GPU list holds the empty record the collector produces on
a driver error, and yet `check_gpu_temp` raises: the defaulted
temperature 0 is at or above the critical threshold 0, so the alert-key
f-string reads the absent `index` field and a `KeyError` escapes.  A
positive warning threshold alone does not make missing-field entries
harmless. -/
theorem C9_counterexample :
    ((0:ℚ) < (Alerter.init cfg9 (fun _ => true)).config.gpu_temp_warning.getD 75) ∧
    (((Alerter.init cfg9 (fun _ => true)).check_gpu_temp [⟨none, none, none, none⟩]
        ("S") 1000).err = some PyError.keyError) := by
  constructor
  · norm_num [Alerter.init, cfg9, emptyConfig]
  · unfold Alerter.check_gpu_temp Alerter.check_gpu_temp_from
    norm_num [Alerter.init, cfg9, emptyConfig, get_level]

/-- Claim C9 amended: a GPU entry whose `temperature` and `memory_percent`
fields are both absent (the collector's empty record) is skipped entirely
by both GPU checks — the missing value is treated as 0, and provided both
the warning AND the critical thresholds of the category are positive, the
level is None, so no notification is emitted, the `index` and `name`
subscripts are never reached, and no error is raised. -/
theorem C9_missing_fields_skipped (a : Alerter) (g : GpuInfo)
    (rest : List GpuInfo) (server_name : String) (now : ℚ)
    (htw : 0 < a.config.gpu_temp_warning.getD 75)
    (htc : 0 < a.config.gpu_temp_critical.getD 85)
    (hmw : 0 < a.config.gpu_memory_warning.getD 80)
    (hmc : 0 < a.config.gpu_memory_critical.getD 95)
    (htemp : g.temperature = none)
    (hmem : g.memory_percent = none) :
    a.check_gpu_temp (g :: rest) server_name now =
      a.check_gpu_temp rest server_name now ∧
    a.check_gpu_memory (g :: rest) server_name now =
      a.check_gpu_memory rest server_name now := by
  constructor
  · unfold Alerter.check_gpu_temp
    conv_lhs => rw [Alerter.check_gpu_temp_from]
    rw [htemp]
    simp only [Option.getD_none]
    rw [get_level_zero _ _ htw htc]
  · unfold Alerter.check_gpu_memory
    conv_lhs => rw [Alerter.check_gpu_memory_from]
    rw [hmem]
    simp only [Option.getD_none]
    rw [get_level_zero _ _ hmw hmc]

/-- Witness for the amended C9: default thresholds (75/85 and 80/95, all
positive) and the collector's empty record. -/
theorem C9_missing_fields_skipped_witness :
    ((0:ℚ) < (Alerter.init emptyConfig (fun _ => true)).config.gpu_temp_warning.getD 75 ∧
     (0:ℚ) < (Alerter.init emptyConfig (fun _ => true)).config.gpu_temp_critical.getD 85 ∧
     (0:ℚ) < (Alerter.init emptyConfig (fun _ => true)).config.gpu_memory_warning.getD 80 ∧
     (0:ℚ) < (Alerter.init emptyConfig (fun _ => true)).config.gpu_memory_critical.getD 95) ∧
    ((Alerter.init emptyConfig (fun _ => true)).check_gpu_temp
        [(⟨none, none, none, none⟩ : GpuInfo)] ("S") 1000 =
      (Alerter.init emptyConfig (fun _ => true)).check_gpu_temp [] ("S") 1000 ∧
     (Alerter.init emptyConfig (fun _ => true)).check_gpu_memory
        [(⟨none, none, none, none⟩ : GpuInfo)] ("S") 1000 =
      (Alerter.init emptyConfig (fun _ => true)).check_gpu_memory [] ("S") 1000) :=
  ⟨⟨by norm_num [Alerter.init, emptyConfig], by norm_num [Alerter.init, emptyConfig],
    by norm_num [Alerter.init, emptyConfig], by norm_num [Alerter.init, emptyConfig]⟩,
   C9_missing_fields_skipped (Alerter.init emptyConfig (fun _ => true))
     ⟨none, none, none, none⟩ [] ("S") 1000
     (by norm_num [Alerter.init, emptyConfig]) (by norm_num [Alerter.init, emptyConfig])
     (by norm_num [Alerter.init, emptyConfig]) (by norm_num [Alerter.init, emptyConfig])
     rfl rfl⟩

/-! Store lemmas across sequences of gate calls and whole passes. -/

/-- A gate call either leaves an entry unchanged or writes `now` into it. -/
theorem can_alert_isSome_iff (a : Alerter) (key k : String) (now : ℚ) :
    (((a.can_alert key now).2.last_alerts k).isSome = true) ↔
      ((a.last_alerts k).isSome = true ∨
        ((a.can_alert key now).1 = true ∧ key = k)) := by
  cases hx : (a.can_alert key now).1
  · rw [can_alert_snd_of_false a key now hx]
    simp
  · by_cases hk : k = key
    · subst hk
      rw [can_alert_snd_of_true a k now hx]
      simp
    · rw [can_alert_frame a key k now hk]
      constructor
      · exact fun h => Or.inl h
      · rintro (h | ⟨h1, h2⟩)
        · exact h
        · exact absurd h2.symm hk

/-- A present entry stays present across a gate call. -/
theorem can_alert_pres (a : Alerter) (key k : String) (now : ℚ)
    (h : (a.last_alerts k).isSome = true) :
    ((a.can_alert key now).2.last_alerts k).isSome = true :=
  (can_alert_isSome_iff a key k now).mpr (Or.inl h)

/-- With a nonnegative cooldown, a gate call can only raise a present
entry's timestamp (to `now`, which the grant condition puts at or above
the stored time plus the cooldown). -/
theorem can_alert_entry_mono (a : Alerter) (key k : String) (now v : ℚ)
    (hcd : 0 ≤ a.cooldown) (h : a.last_alerts k = some v) :
    ∃ v', (a.can_alert key now).2.last_alerts k = some v' ∧ v ≤ v' := by
  by_cases hk : k = key
  · subst hk
    cases hx : (a.can_alert k now).1
    · rw [can_alert_snd_of_false a k now hx]
      exact ⟨v, h, le_refl v⟩
    · have hgt := (can_alert_true_iff a k now).mp hx
      rw [h] at hgt
      simp only [Option.getD_some] at hgt
      exact ⟨now, can_alert_snd_of_true a k now hx, by linarith⟩
  · rw [can_alert_frame a key k now hk]
    exact ⟨v, h, le_refl v⟩

/-- Running an appended sequence of gate calls is running the two parts in
order. -/
theorem applyGates_append (a : Alerter) (l1 l2 : List (String × ℚ)) :
    applyGates a (l1 ++ l2) = applyGates (applyGates a l1) l2 := by
  induction l1 generalizing a with
  | nil => rfl
  | cons op rest ih =>
      simp only [List.cons_append, applyGates]
      exact ih _

/-- Gate sequences never change the resolved cooldown. -/
theorem applyGates_cooldown (l : List (String × ℚ)) (a : Alerter) :
    (applyGates a l).cooldown = a.cooldown := by
  induction l generalizing a with
  | nil => rfl
  | cons op rest ih =>
      simp only [applyGates]
      rw [ih, can_alert_cooldown]

/-- A key is present after a gate sequence iff it was present before or
some call of the sequence fired on it. -/
theorem applyGates_isSome_iff (l : List (String × ℚ)) (a : Alerter) (k : String) :
    (((applyGates a l).last_alerts k).isSome = true) ↔
      ((a.last_alerts k).isSome = true ∨ gateFired a k l = true) := by
  induction l generalizing a with
  | nil => simp [applyGates, gateFired]
  | cons op rest ih =>
      simp only [applyGates, gateFired]
      rw [ih, can_alert_isSome_iff a op.1 k op.2]
      simp only [Bool.or_eq_true, Bool.and_eq_true, beq_iff_eq]
      tauto

/-- With a nonnegative cooldown, a present entry's timestamp never
decreases across a gate sequence. -/
theorem applyGates_entry_mono (l : List (String × ℚ)) (a : Alerter)
    (k : String) (v : ℚ) (hcd : 0 ≤ a.cooldown)
    (h : a.last_alerts k = some v) :
    ∃ v', (applyGates a l).last_alerts k = some v' ∧ v ≤ v' := by
  induction l generalizing a v with
  | nil => exact ⟨v, h, le_refl v⟩
  | cons op rest ih =>
      obtain ⟨v1, h1, hv1⟩ := can_alert_entry_mono a op.1 k op.2 v hcd h
      obtain ⟨v2, h2, hv2⟩ := ih ((a.can_alert op.1 op.2).2) v1
        (by rw [can_alert_cooldown]; exact hcd) h1
      simp only [applyGates]
      exact ⟨v2, h2, le_trans hv1 hv2⟩

/-- A present entry stays present across a gate sequence. -/
theorem applyGates_pres (l : List (String × ℚ)) (a : Alerter) (k : String)
    (h : (a.last_alerts k).isSome = true) :
    ((applyGates a l).last_alerts k).isSome = true :=
  (applyGates_isSome_iff l a k).mpr (Or.inl h)

/-- The CPU check never removes a store entry. -/
theorem check_cpu_pres (a : Alerter) (cpu : ℚ) (server_name : String)
    (now : ℚ) (k : String) (h : (a.last_alerts k).isSome = true) :
    ((a.check_cpu cpu server_name now).alerter.last_alerts k).isSome = true := by
  unfold Alerter.check_cpu
  cases get_level cpu (a.config.cpu_warning.getD 70) (a.config.cpu_critical.getD 90) with
  | none => exact h
  | some level =>
      dsimp only
      split_ifs with h1 h2 <;> exact can_alert_pres a _ k now h

/-- The memory check never removes a store entry. -/
theorem check_memory_pres (a : Alerter) (mem : ℚ) (server_name : String)
    (now : ℚ) (k : String) (h : (a.last_alerts k).isSome = true) :
    ((a.check_memory mem server_name now).alerter.last_alerts k).isSome = true := by
  unfold Alerter.check_memory
  cases get_level mem (a.config.memory_warning.getD 80) (a.config.memory_critical.getD 95) with
  | none => exact h
  | some level =>
      dsimp only
      split_ifs with h1 h2 <;> exact can_alert_pres a _ k now h

/-- The disk loop never removes a store entry. -/
theorem check_disk_from_pres (disks : List DiskInfo) (a : Alerter)
    (warning critical : ℚ) (server_name : String) (now : ℚ) (k : String)
    (h : (a.last_alerts k).isSome = true) :
    ((a.check_disk_from warning critical disks server_name now).alerter.last_alerts
      k).isSome = true := by
  induction disks generalizing a with
  | nil => exact h
  | cons d rest ih =>
      unfold Alerter.check_disk_from
      cases get_level d.percent warning critical with
      | none => exact ih a h
      | some level =>
          dsimp only
          split_ifs with h1 h2
          · exact ih _ (can_alert_pres a _ k now h)
          · exact can_alert_pres a _ k now h
          · exact ih _ (can_alert_pres a _ k now h)

/-- The GPU-temperature loop never removes a store entry. -/
theorem check_gpu_temp_from_pres (gpus : List GpuInfo) (a : Alerter)
    (warning critical : ℚ) (server_name : String) (now : ℚ) (k : String)
    (h : (a.last_alerts k).isSome = true) :
    ((a.check_gpu_temp_from warning critical gpus server_name now).alerter.last_alerts
      k).isSome = true := by
  induction gpus generalizing a with
  | nil => exact h
  | cons g rest ih =>
      unfold Alerter.check_gpu_temp_from
      cases get_level (g.temperature.getD 0) warning critical with
      | none => exact ih a h
      | some level =>
          dsimp only
          cases g.index with
          | none => exact h
          | some idx =>
              dsimp only
              cases g.name with
              | none =>
                  dsimp only
                  split_ifs with h1
                  · exact can_alert_pres a _ k now h
                  · exact ih _ (can_alert_pres a _ k now h)
              | some nm =>
                  dsimp only
                  split_ifs with h1 h2
                  · exact ih _ (can_alert_pres a _ k now h)
                  · exact can_alert_pres a _ k now h
                  · exact ih _ (can_alert_pres a _ k now h)

/-- The GPU-memory loop never removes a store entry. -/
theorem check_gpu_memory_from_pres (gpus : List GpuInfo) (a : Alerter)
    (warning critical : ℚ) (server_name : String) (now : ℚ) (k : String)
    (h : (a.last_alerts k).isSome = true) :
    ((a.check_gpu_memory_from warning critical gpus server_name now).alerter.last_alerts
      k).isSome = true := by
  induction gpus generalizing a with
  | nil => exact h
  | cons g rest ih =>
      unfold Alerter.check_gpu_memory_from
      cases get_level (g.memory_percent.getD 0) warning critical with
      | none => exact ih a h
      | some level =>
          dsimp only
          cases g.index with
          | none => exact h
          | some idx =>
              dsimp only
              cases g.name with
              | none =>
                  dsimp only
                  split_ifs with h1
                  · exact can_alert_pres a _ k now h
                  · exact ih _ (can_alert_pres a _ k now h)
              | some nm =>
                  dsimp only
                  split_ifs with h1 h2
                  · exact ih _ (can_alert_pres a _ k now h)
                  · exact can_alert_pres a _ k now h
                  · exact ih _ (can_alert_pres a _ k now h)

/-- Entry presence passes through sequencing. -/
theorem andThen_pres (r : CheckResult) (f : Alerter → CheckResult) (k : String)
    (hr : (r.alerter.last_alerts k).isSome = true)
    (hf : ∀ a', (a'.last_alerts k).isSome = true →
      (((f a').alerter.last_alerts k).isSome = true)) :
    (((r.andThen f).alerter.last_alerts k).isSome = true) := by
  unfold CheckResult.andThen
  cases r.err with
  | some e => exact hr
  | none => exact hf _ hr

/-- A whole evaluation pass never removes a store entry. -/
theorem check_all_pres (a : Alerter) (sm : SystemMetrics) (g : List GpuInfo)
    (server_name : String) (now : ℚ) (k : String)
    (h : (a.last_alerts k).isSome = true) :
    ((a.check_all sm g server_name now).alerter.last_alerts k).isSome = true := by
  unfold Alerter.check_all
  apply andThen_pres
  · exact check_cpu_pres a sm.cpu_percent server_name now k h
  · intro a1 h1
    apply andThen_pres
    · exact check_memory_pres a1 sm.memory.percent server_name now k h1
    · intro a2 h2
      apply andThen_pres
      · exact check_disk_from_pres sm.disks a2 _ _ server_name now k h2
      · intro a3 h3
        split_ifs with hg
        · exact h3
        · apply andThen_pres
          · exact check_gpu_temp_from_pres g a3 _ _ server_name now k h3
          · intro a4 h4
            exact check_gpu_memory_from_pres g a4 _ _ server_name now k h4

/-- Claim C7: starting from the empty store of a freshly constructed
alerter, after any sequence of gate calls a key is present iff some call
of the sequence fired on it, and (for a nonnegative cooldown) a timestamp
present after a prefix of the sequence never exceeds the one present
after the whole sequence: stored timestamps are monotonically
non-decreasing across updates. -/
theorem C7_store_invariant (cfg : AlertsConfig) (send : Message → Bool)
    (ops1 ops2 : List (String × ℚ)) (k : String) (v : ℚ)
    (hcd : 0 ≤ (Alerter.init cfg send).cooldown) :
    ((((applyGates (Alerter.init cfg send) (ops1 ++ ops2)).last_alerts k).isSome = true) ↔
        gateFired (Alerter.init cfg send) k (ops1 ++ ops2) = true) ∧
    ((applyGates (Alerter.init cfg send) ops1).last_alerts k = some v →
        ∃ v', (applyGates (Alerter.init cfg send) (ops1 ++ ops2)).last_alerts k = some v' ∧
          v ≤ v') := by
  constructor
  · rw [applyGates_isSome_iff]
    constructor
    · rintro (habs | hf)
      · simp [Alerter.init] at habs
      · exact hf
    · exact fun hf => Or.inr hf
  · intro h
    rw [applyGates_append]
    exact applyGates_entry_mono ops2 _ k v
      (by rw [applyGates_cooldown]; exact hcd) h

/-- Witness for C7: the default-config alerter, one granted call at time
300 followed by one at time 700. -/
theorem C7_store_invariant_witness :
    ((0:ℚ) ≤ (Alerter.init emptyConfig (fun _ => true)).cooldown) ∧
    (((((applyGates (Alerter.init emptyConfig (fun _ => true))
          ([(("k"), (300:ℚ))] ++ [(("k"), 700)])).last_alerts ("k")).isSome = true) ↔
        gateFired (Alerter.init emptyConfig (fun _ => true)) ("k")
          ([(("k"), (300:ℚ))] ++ [(("k"), 700)]) = true) ∧
     ((applyGates (Alerter.init emptyConfig (fun _ => true))
          [(("k"), (300:ℚ))]).last_alerts ("k") = some 300 →
        ∃ v', (applyGates (Alerter.init emptyConfig (fun _ => true))
          ([(("k"), (300:ℚ))] ++ [(("k"), 700)])).last_alerts ("k") = some v' ∧
            (300:ℚ) ≤ v')) :=
  ⟨by norm_num [Alerter.init, emptyConfig],
   C7_store_invariant emptyConfig (fun _ => true) [(("k"), 300)] [(("k"), 700)]
     ("k") 300 (by norm_num [Alerter.init, emptyConfig])⟩

/-- Claim C10: no Alert Engine operation removes a key — a key present in
the store stays present across any gate sequence and across a whole
evaluation pass (entries are only added or overwritten). -/
theorem C10_keys_never_removed (a : Alerter) (ops : List (String × ℚ))
    (sm : SystemMetrics) (g : List GpuInfo) (server_name : String) (now : ℚ)
    (k : String) (h : (a.last_alerts k).isSome = true) :
    (((applyGates a ops).last_alerts k).isSome = true) ∧
    (((a.check_all sm g server_name now).alerter.last_alerts k).isSome = true) :=
  ⟨applyGates_pres ops a k h, check_all_pres a sm g server_name now k h⟩

/-- Witness for C10: `demoAlerter` holds key `other`; it survives a gate
call on another key and a full pass. -/
theorem C10_keys_never_removed_witness :
    ((demoAlerter.last_alerts ("other")).isSome = true) ∧
    ((((applyGates demoAlerter [(("x"), 1)]).last_alerts ("other")).isSome = true) ∧
     (((demoAlerter.check_all ⟨50, ⟨50⟩, []⟩ [] ("S") 42).alerter.last_alerts
        ("other")).isSome = true)) :=
  ⟨by decide,
   C10_keys_never_removed demoAlerter [(("x"), 1)] ⟨50, ⟨50⟩, []⟩ [] ("S") 42
     ("other") (by decide)⟩

end UbuntuServerMonitor
